import Mathlib

/-!
Shallow embedding of the ChronoGuard Pro Subscription Quota & Appointment
Risk Engine, together with the verification of its specification claims.

Probabilities (JS numbers) are modelled as rationals, risk percentages as
integers (`Math.round` is `round`), JSX badge output as plain structures.
-/

/-- Risk tiers produced by the classifier and shown by the UI. -/
inductive RiskLevel : Type
  | low
  | medium
  | high
  deriving DecidableEq, Repr

/-- Rank of a tier, used to state monotonicity of the tier mapping. -/
def riskRank : RiskLevel → ℕ
  | .low => 0
  | .medium => 1
  | .high => 2

/-- `getRiskLevel` from `AppointmentList` (src/unnamed/part_008, lines 88-92):
`if (probability >= 0.4) return 'high'; if (probability >= 0.25) return 'medium'; return 'low'`. -/
def getRiskLevel (probability : ℚ) : RiskLevel :=
  if probability ≥ 0.4 then .high
  else if probability ≥ 0.25 then .medium
  else .low

/-- `calculateNoShowRisk` from the shared utilities
(src/packages/frontend/src/components/charts/NoShowTrendChart.tsx, second file,
lines 96-100): `if (probability < 0.3) return 'low'; if (probability < 0.7) return 'medium'; return 'high'`. -/
def calculateNoShowRisk (probability : ℚ) : RiskLevel :=
  if probability < 0.3 then .low
  else if probability < 0.7 then .medium
  else .high

/-- C1: for every probability `p`, `getRiskLevel` returns exactly one of
{low, medium, high} with `low ↔ p < 0.25`, `medium ↔ 0.25 ≤ p < 0.40`,
`high ↔ p ≥ 0.40`; in particular `getRiskLevel 0.25 = medium` and
`getRiskLevel 0.40 = high`, and the mapping is a total, monotone step
function. -/
theorem getRiskLevel_tier_table (p : ℚ) :
    (getRiskLevel p = .low ↔ p < 0.25) ∧
    (getRiskLevel p = .medium ↔ 0.25 ≤ p ∧ p < 0.4) ∧
    (getRiskLevel p = .high ↔ 0.4 ≤ p) ∧
    getRiskLevel 0.25 = .medium ∧ getRiskLevel 0.4 = .high ∧
    (∀ q : ℚ, p ≤ q → riskRank (getRiskLevel p) ≤ riskRank (getRiskLevel q)) := by
  refine ⟨?_, ?_, ?_, by norm_num [getRiskLevel], by norm_num [getRiskLevel], ?_⟩
  · unfold getRiskLevel
    split_ifs with h1 h2 <;> simp <;> linarith
  · unfold getRiskLevel
    split_ifs with h1 h2 <;> simp
    · intro h
      linarith
    · exact ⟨by linarith, by linarith⟩
    · intro h
      linarith
  · unfold getRiskLevel
    split_ifs with h1 h2 <;> simp <;> linarith
  · intro q hpq
    unfold getRiskLevel riskRank
    split_ifs with h1 h2 h3 h4 h5 <;> simp_all <;> linarith

theorem getRiskLevel_tier_table_witness :
    ((0.1 : ℚ) ≤ 0.3) ∧
      riskRank (getRiskLevel 0.1) ≤ riskRank (getRiskLevel 0.3) :=
  ⟨by norm_num, ((getRiskLevel_tier_table 0.1).2.2.2.2.2) 0.3 (by norm_num)⟩

/-- C2: the two call sites disagree on the tier thresholds — at probability
0.5 the shared utility `calculateNoShowRisk` (0.3/0.7 cutoffs) reports
`medium` while `getRiskLevel` (0.25/0.4 cutoffs) reports `high`, so there is
no single canonical risk-tier table. -/
theorem riskTier_threshold_mismatch :
    calculateNoShowRisk 0.5 = .medium ∧ getRiskLevel 0.5 = .high ∧
      calculateNoShowRisk 0.5 ≠ getRiskLevel 0.5 := by
  refine ⟨by norm_num [calculateNoShowRisk], by norm_num [getRiskLevel], ?_⟩
  intro h
  rw [show calculateNoShowRisk 0.5 = RiskLevel.medium from by
        norm_num [calculateNoShowRisk]] at h
  rw [show getRiskLevel 0.5 = RiskLevel.high from by norm_num [getRiskLevel]] at h
  cases h

/-- The visual severity of a risk badge: `destructive` is the red badge,
`secondaryAmber` the amber `bg-amber-100` badge, `outlineGreen` the green
outline badge. -/
inductive BadgeVariant : Type
  | destructive
  | secondaryAmber
  | outlineGreen
  deriving DecidableEq, Repr

/-- The observable content of the JSX badge returned by `getRiskBadge`:
its variant and the rounded percentage it displays. -/
structure RiskBadge : Type where
  variant : BadgeVariant
  percentage : ℤ
  deriving DecidableEq, Repr

/-- `getRiskBadge` from `AppointmentList` (src/unnamed/part_008, lines
94-121): looks up `getRiskLevel(probability)` and renders
`Math.round(probability * 100)` with a variant per tier. -/
def getRiskBadge (probability : ℚ) : RiskBadge :=
  let riskLevel := getRiskLevel probability
  let riskPercentage : ℤ := round (probability * 100)
  match riskLevel with
  | .high => ⟨.destructive, riskPercentage⟩
  | .medium => ⟨.secondaryAmber, riskPercentage⟩
  | .low => ⟨.outlineGreen, riskPercentage⟩

/-- C10: `getRiskBadge p` always displays `round (100 * p)` percent, and its
variant is consistent with `getRiskLevel`: destructive iff high, amber iff
medium, green outline iff low. -/
theorem getRiskBadge_consistent (p : ℚ) :
    (getRiskBadge p).percentage = round (100 * p) ∧
    ((getRiskBadge p).variant = .destructive ↔ getRiskLevel p = .high) ∧
    ((getRiskBadge p).variant = .secondaryAmber ↔ getRiskLevel p = .medium) ∧
    ((getRiskBadge p).variant = .outlineGreen ↔ getRiskLevel p = .low) := by
  unfold getRiskBadge
  rcases h : getRiskLevel p with _ | _ | _ <;>
    simp [h, mul_comm]

/-- An appointment as displayed by `AppointmentList`
(src/unnamed/part_008 `Appointment` interface, lines 22-31);
`no_show_probability` is optional in the shared `Appointment` type
(NoShowTrendChart.tsx second file, line 59) and the UI guards it with
`|| 0`, so it is embedded as an `Option`. -/
structure Appointment : Type where
  id : String
  provider_id : String
  patient_id : String
  scheduled_time : String
  duration_minutes : ℕ
  appointment_type : String
  status : String
  no_show_probability : Option ℚ

/-- The tier the UI computes for an appointment row
(src/unnamed/part_008, line 198: `getRiskLevel(appointment.no_show_probability || 0)`). -/
def displayedRiskLevel (p : Option ℚ) : RiskLevel :=
  getRiskLevel (p.getD 0)

/-- The badge the UI renders for an appointment row
(src/unnamed/part_008, line 256: `getRiskBadge(appointment.no_show_probability || 0)`). -/
def displayedRiskBadge (p : Option ℚ) : RiskBadge :=
  getRiskBadge (p.getD 0)

/-- Follows the spec's words, for comparison with `displayedRiskLevel`:
"if any required feature is missing, fall back to a configured baseline
probability for the tenant/provider" — tier of the configured baseline when
the probability is absent. -/
def specBaselineRiskLevel (baseline : ℚ) (p : Option ℚ) : RiskLevel :=
  getRiskLevel (p.getD baseline)

/-- C5 counterexample: with a configured tenant baseline of 0.3 the spec's
fallback tier for an absent probability would be `medium`, but the UI
displays `low` — the code falls back to the constant 0, not to a configured
baseline. -/
theorem displayedRiskLevel_ignores_baseline :
    specBaselineRiskLevel 0.3 none = .medium ∧
    displayedRiskLevel none = .low ∧
    displayedRiskLevel none ≠ specBaselineRiskLevel 0.3 none := by
  refine ⟨by norm_num [specBaselineRiskLevel, getRiskLevel], by
    norm_num [displayedRiskLevel, getRiskLevel], ?_⟩
  intro h
  rw [show displayedRiskLevel none = RiskLevel.low from by
        norm_num [displayedRiskLevel, getRiskLevel]] at h
  rw [show specBaselineRiskLevel 0.3 none = RiskLevel.medium from by
        norm_num [specBaselineRiskLevel, getRiskLevel]] at h
  cases h

/-- C5 (amended): an absent `no_show_probability` never blocks the flow —
the row still gets a tier and a badge, namely the fixed fallback probability
0: tier `low`, green outline badge showing 0% — and a present probability is
used directly. -/
theorem displayedRisk_fallback_zero :
    displayedRiskLevel none = .low ∧
    displayedRiskBadge none = ⟨.outlineGreen, 0⟩ ∧
    (∀ p : ℚ, displayedRiskLevel (some p) = getRiskLevel p) ∧
    (∀ p : ℚ, displayedRiskBadge (some p) = getRiskBadge p) := by
  refine ⟨by norm_num [displayedRiskLevel, getRiskLevel], ?_, fun p => rfl, fun p => rfl⟩
  norm_num [displayedRiskBadge, getRiskBadge, getRiskLevel]

/-- Low-risk count of the summary footer (src/unnamed/part_008, line 344):
`appointments.filter(a => getRiskLevel(a.no_show_probability || 0) === 'low').length`. -/
def lowRiskCount (appointments : List Appointment) : ℕ :=
  (appointments.filter
    (fun a => decide (displayedRiskLevel a.no_show_probability = .low))).length

/-- Medium-risk count of the summary footer (src/unnamed/part_008, line 347). -/
def mediumRiskCount (appointments : List Appointment) : ℕ :=
  (appointments.filter
    (fun a => decide (displayedRiskLevel a.no_show_probability = .medium))).length

/-- High-risk count of the summary footer (src/unnamed/part_008, line 350). -/
def highRiskCount (appointments : List Appointment) : ℕ :=
  (appointments.filter
    (fun a => decide (displayedRiskLevel a.no_show_probability = .high))).length

/-- C8: the three risk buckets of the `AppointmentList` summary footer form a
partition of the appointment list — their counts always sum to the total
appointment count. -/
theorem riskBuckets_partition (appointments : List Appointment) :
    lowRiskCount appointments + mediumRiskCount appointments +
      highRiskCount appointments = appointments.length := by
  induction appointments with
  | nil => rfl
  | cons a rest ih =>
    unfold lowRiskCount mediumRiskCount highRiskCount at *
    rcases h : displayedRiskLevel a.no_show_probability with _ | _ | _ <;>
      simp [List.filter_cons, h] <;> omega

/-- A subscription plan as consumed by the pricing page
(src/packages/frontend/src/app/pricing/page.tsx, `SubscriptionPlan`
interface, lines 10-16). -/
structure SubscriptionPlan : Type where
  name : String
  price : ℚ
  features : List String
  max_providers : ℕ
  max_appointments_per_month : ℕ

/-- The appointments line of a pricing card
(src/packages/frontend/src/app/pricing/page.tsx, lines 219-227):
`plan.max_appointments_per_month === 999999 ? 'Unlimited appointments' :
`${plan.max_appointments_per_month} appointments/month``. -/
def planAppointmentsLabel (plan : SubscriptionPlan) : String :=
  if plan.max_appointments_per_month = 999999 then "Unlimited appointments"
  else toString plan.max_appointments_per_month ++ " appointments/month"

/-- The numeric per-month label never collides with the unlimited label:
`" appointments/month"` is not a suffix of `"Unlimited appointments"`. -/
theorem numericLabel_ne_unlimited (n : ℕ) :
    toString n ++ " appointments/month" ≠ "Unlimited appointments" := by
  intro h
  have hdata : (toString n).data ++ " appointments/month".data
      = "Unlimited appointments".data := by
    rw [← String.data_append, h]
  have hsuff : " appointments/month".data <:+ "Unlimited appointments".data :=
    ⟨(toString n).data, hdata⟩
  exact absurd hsuff (by decide)

/-- C6: a plan is presented as unlimited exactly when its
`max_appointments_per_month` equals the catalog sentinel 999999: the pricing
page shows `Unlimited appointments` iff the limit is 999999, and the numeric
per-month label otherwise. -/
theorem planAppointmentsLabel_unlimited_iff (plan : SubscriptionPlan) :
    (planAppointmentsLabel plan = "Unlimited appointments" ↔
      plan.max_appointments_per_month = 999999) ∧
    (plan.max_appointments_per_month ≠ 999999 →
      planAppointmentsLabel plan =
        toString plan.max_appointments_per_month ++ " appointments/month") := by
  unfold planAppointmentsLabel
  split_ifs with h
  · exact ⟨⟨fun _ => h, fun _ => rfl⟩, fun hn => absurd h hn⟩
  · exact ⟨⟨fun hc => absurd hc (numericLabel_ne_unlimited _), fun hc => absurd hc h⟩,
      fun _ => rfl⟩

theorem planAppointmentsLabel_unlimited_iff_witness :
    (100 ≠ 999999) ∧
      planAppointmentsLabel ⟨"trial", 0, [], 2, 100⟩ =
        toString (100 : ℕ) ++ " appointments/month" :=
  ⟨by decide,
    (planAppointmentsLabel_unlimited_iff ⟨"trial", 0, [], 2, 100⟩).2 (by decide)⟩

/-- The dashboard's trial progress computation
(src/packages/frontend/src/app/dashboard/page.tsx, lines 126-127):
`subscription?.trial_days_left ? ((14 - subscription.trial_days_left) / 14) * 100 : 0`.
The JavaScript conditional is falsy both when `trial_days_left` is absent and
when it is 0, so both cases yield 0. -/
def trialProgress (trial_days_left : Option ℚ) : ℚ :=
  match trial_days_left with
  | none => 0
  | some d => if d = 0 then 0 else (14 - d) / 14 * 100

/-- C7 counterexample: at `trial_days_left = 0` the dashboard computes 0,
not `((14 - 0) / 14) * 100 = 100` — the falsy guard swallows the value 0. -/
theorem trialProgress_at_zero_days :
    trialProgress (some 0) = 0 ∧ (14 - (0 : ℚ)) / 14 * 100 = 100 ∧
      trialProgress (some 0) ≠ (14 - (0 : ℚ)) / 14 * 100 := by
  refine ⟨rfl, by norm_num, ?_⟩
  rw [show trialProgress (some 0) = 0 from rfl]
  norm_num

/-- C7 (amended): for a trial tenant with `trial_days_left = d`,
`0 ≤ d ≤ 14`, the dashboard's trial progress equals `((14 - d) / 14) * 100`
and lies in [0, 100] whenever `d ≠ 0`; at `d = 0` the falsy guard displays
0 instead. -/
theorem trialProgress_formula (d : ℚ) (h0 : 0 ≤ d) (h14 : d ≤ 14) (hz : d ≠ 0) :
    trialProgress (some d) = (14 - d) / 14 * 100 ∧
      0 ≤ trialProgress (some d) ∧ trialProgress (some d) ≤ 100 := by
  have hv : trialProgress (some d) = (14 - d) / 14 * 100 := by
    unfold trialProgress
    simp [hz]
  refine ⟨hv, ?_, ?_⟩
  · rw [hv]
    have : 0 ≤ 14 - d := by linarith
    positivity
  · rw [hv]
    rw [div_mul_eq_mul_div, div_le_iff₀ (by norm_num : (0:ℚ) < 14)]
    linarith

theorem trialProgress_formula_witness :
    trialProgress (some 7) = (14 - (7 : ℚ)) / 14 * 100 ∧
      0 ≤ trialProgress (some 7) ∧ trialProgress (some 7) ≤ 100 :=
  trialProgress_formula 7 (by norm_num) (by norm_num) (by norm_num)

/-- Icons used by the navigation subscription badges
(src/unnamed/part_005, lines 118-123). -/
inductive NavIcon : Type
  | zap
  | shield
  deriving DecidableEq, Repr

/-- The observable content of a navigation subscription badge:
label, CSS class and icon (src/unnamed/part_005, lines 118-123). -/
structure NavBadge : Type where
  label : String
  className : String
  icon : NavIcon
  deriving DecidableEq, Repr

/-- The property names every plain JavaScript object literal inherits from
`Object.prototype`; `badges[status]` finds these on the prototype chain and
each of their values (a function, or the prototype object for `__proto__`)
is truthy. -/
def objectPrototypeKeys : List String :=
  ["constructor", "hasOwnProperty", "isPrototypeOf", "propertyIsEnumerable",
   "toLocaleString", "toString", "valueOf", "__defineGetter__",
   "__defineSetter__", "__lookupGetter__", "__lookupSetter__", "__proto__"]

/-- What the JavaScript lookup `badges[status]` can produce: one of the four
own badge records, a truthy value inherited from `Object.prototype`, or
`undefined`. -/
inductive BadgeLookup : Type
  | badge (b : NavBadge)
  | inherited
  | missing
  deriving DecidableEq, Repr

/-- The `badges[status]` lookup of `getSubscriptionBadge`
(src/unnamed/part_005, lines 118-125): own properties are the four badge
records; any `Object.prototype` property name yields an inherited truthy
value; every other key yields `undefined`. -/
def navBadgeLookup (status : String) : BadgeLookup :=
  if status = "trial" then .badge ⟨"Trial", "bg-amber-100 text-amber-800", .zap⟩
  else if status = "starter" then .badge ⟨"Starter", "bg-blue-100 text-blue-800", .shield⟩
  else if status = "professional" then .badge ⟨"Pro", "bg-purple-100 text-purple-800", .shield⟩
  else if status = "enterprise" then .badge ⟨"Enterprise", "bg-emerald-100 text-emerald-800", .shield⟩
  else if status ∈ objectPrototypeKeys then .inherited
  else .missing

/-- The trial badge, the `|| badges.trial` fallback of `getSubscriptionBadge`. -/
def trialNavBadge : NavBadge := ⟨"Trial", "bg-amber-100 text-amber-800", .zap⟩

/-- What the component renders: a proper badge, or — when the lookup found
an inherited truthy non-badge value, so the `|| badges.trial` fallback is
skipped — a broken badge whose `label`, `className` and `icon` are all
`undefined`. -/
inductive RenderedBadge : Type
  | navBadge (b : NavBadge)
  | broken
  deriving DecidableEq, Repr

/-- `getSubscriptionBadge` from `Navigation` (src/unnamed/part_005, lines
115-134): `if (!user?.subscription_status) return null` (absent user or the
falsy empty string), then `const badge = badges[status] || badges.trial` —
the fallback fires only when the lookup is falsy (`undefined`), so an
inherited truthy `Object.prototype` value is rendered (brokenly) instead.
`none` models an absent user or absent status. -/
def getSubscriptionBadge (status : Option String) : Option RenderedBadge :=
  match status with
  | none => none
  | some s =>
    if s = "" then none
    else
      match navBadgeLookup s with
      | .badge b => some (.navBadge b)
      | .inherited => some .broken
      | .missing => some (.navBadge trialNavBadge)

/-- C9 counterexample: `"toString"` is a non-empty status outside
{trial, starter, professional, enterprise}, yet `getSubscriptionBadge` does
not fall back to the Trial badge there — `badges["toString"]` finds the
inherited truthy `Object.prototype.toString`, the `|| badges.trial` fallback
is skipped, and a broken badge is rendered. -/
theorem getSubscriptionBadge_prototype_leak :
    ("toString" : String) ≠ "" ∧ ("toString" : String) ≠ "trial" ∧
    ("toString" : String) ≠ "starter" ∧ ("toString" : String) ≠ "professional" ∧
    ("toString" : String) ≠ "enterprise" ∧
    getSubscriptionBadge (some "toString") = some .broken ∧
    getSubscriptionBadge (some "toString") ≠ some (.navBadge trialNavBadge) := by
  refine ⟨by decide, by decide, by decide, by decide, by decide, by decide, by decide⟩

/-- C9 (amended): for every non-empty `subscription_status` outside
{trial, starter, professional, enterprise} that is not one of the
`Object.prototype` property names — including the lifecycle statuses
`active`, `expired` and `cancelled` — `getSubscriptionBadge` falls back to
the Trial badge; at a prototype property name the inherited truthy value
suppresses the fallback and a broken badge is rendered; `null` is returned
only when the status is absent or empty. -/
theorem getSubscriptionBadge_fallback (s : String)
    (hne : s ≠ "") (h1 : s ≠ "trial") (h2 : s ≠ "starter")
    (h3 : s ≠ "professional") (h4 : s ≠ "enterprise")
    (hproto : s ∉ objectPrototypeKeys) :
    getSubscriptionBadge (some s) = some (.navBadge trialNavBadge) ∧
    getSubscriptionBadge none = none ∧
    getSubscriptionBadge (some "") = none ∧
    getSubscriptionBadge (some "active") = some (.navBadge trialNavBadge) ∧
    getSubscriptionBadge (some "expired") = some (.navBadge trialNavBadge) ∧
    getSubscriptionBadge (some "cancelled") = some (.navBadge trialNavBadge) ∧
    (∀ t : String, t ≠ "" → getSubscriptionBadge (some t) ≠ none) := by
  refine ⟨?_, rfl, by decide, by decide, by decide, by decide, ?_⟩
  · unfold getSubscriptionBadge navBadgeLookup
    simp [hne, h1, h2, h3, h4, hproto]
  · intro t ht
    unfold getSubscriptionBadge
    rcases h : navBadgeLookup t <;> simp [ht, h]

theorem getSubscriptionBadge_fallback_witness :
    getSubscriptionBadge (some "active") = some (.navBadge trialNavBadge) ∧
      getSubscriptionBadge none = none :=
  ⟨(getSubscriptionBadge_fallback "active" (by decide) (by decide) (by decide)
      (by decide) (by decide) (by decide)).1,
    (getSubscriptionBadge_fallback "active" (by decide) (by decide) (by decide)
      (by decide) (by decide) (by decide)).2.1⟩

/-- Modelled from the spec: the QuotaLedger's per-tenant, per-calendar-month
counter (the Python backend implementing it is not under src/). `used` is
the number of successful reservations this month, `limit` the plan's
`max_appointments_per_month`. -/
structure QuotaCounter : Type where
  used : ℕ
  limit : ℕ
  deriving DecidableEq, Repr

/-- Result of a quota reservation attempt. -/
inductive ReserveResult : Type
  | ok
  | quotaExceeded
  deriving DecidableEq, Repr

/-- Modelled from the spec: `reserve(tenant_id, appointment)` — an atomic
compare-and-increment: succeed and increment while `used < limit`, otherwise
fail with `QuotaExceeded` and leave the counter unchanged. -/
def reserve (c : QuotaCounter) : ReserveResult × QuotaCounter :=
  if c.used < c.limit then (.ok, ⟨c.used + 1, c.limit⟩)
  else (.quotaExceeded, c)

/-- Modelled from the spec: `n` concurrent reservation attempts against one
tenant's counter. Because each `reserve` is a single atomic operation, every
interleaving of `n` identical attempts is equivalent to `n` sequential
`reserve` steps, which is what this function runs. -/
def runReserves : QuotaCounter → ℕ → List ReserveResult × QuotaCounter
  | c, 0 => ([], c)
  | c, n + 1 =>
    let step := reserve c
    let rest := runReserves step.2 n
    (step.1 :: rest.1, rest.2)

/-- Number of successful attempts among a list of reservation results. -/
def okCount (rs : List ReserveResult) : ℕ :=
  (rs.filter (fun r => decide (r = .ok))).length

/-- Number of `QuotaExceeded` failures among a list of reservation results. -/
def exceededCount (rs : List ReserveResult) : ℕ :=
  (rs.filter (fun r => decide (r = .quotaExceeded))).length

theorem runReserves_okCount (n : ℕ) :
    ∀ c : QuotaCounter, okCount (runReserves c n).1 = min n (c.limit - c.used) := by
  induction n with
  | zero => intro c; simp [runReserves, okCount]
  | succ n ih =>
    intro c
    unfold runReserves reserve
    by_cases h : c.used < c.limit
    · simp only [h, if_pos]
      have := ih ⟨c.used + 1, c.limit⟩
      simp [okCount, List.filter_cons] at this ⊢
      omega
    · simp only [h, if_neg, if_false]
      have := ih c
      simp [okCount, List.filter_cons] at this ⊢
      omega

theorem runReserves_length (n : ℕ) :
    ∀ c : QuotaCounter, (runReserves c n).1.length = n := by
  induction n with
  | zero => intro c; rfl
  | succ n ih =>
    intro c
    unfold runReserves
    simp [ih]

theorem runReserves_partition (rs : List ReserveResult) :
    okCount rs + exceededCount rs = rs.length := by
  induction rs with
  | nil => rfl
  | cons r rest ih =>
    unfold okCount exceededCount at *
    rcases r <;> simp [List.filter_cons] <;> omega

theorem runReserves_used (n : ℕ) :
    ∀ c : QuotaCounter, c.used ≤ c.limit →
      (runReserves c n).2.used = min (c.used + n) c.limit := by
  induction n with
  | zero => intro c h; simp [runReserves]; omega
  | succ n ih =>
    intro c h
    unfold runReserves reserve
    by_cases hlt : c.used < c.limit
    · simp only [hlt, if_pos]
      have := ih ⟨c.used + 1, c.limit⟩ (by simpa using hlt)
      simp at this ⊢
      omega
    · simp only [hlt, if_neg, if_false]
      have := ih c h
      simp at this ⊢
      omega

/-- C3: for `n` concurrent reservation attempts against a tenant whose
remaining monthly quota is `r = limit - used < n`, exactly `r` attempts
succeed, the other `n - r` fail with `QuotaExceeded`, and the number of
successful reservations never exceeds the plan's monthly limit. -/
theorem quota_reserve_exact (c : QuotaCounter) (n : ℕ)
    (hcl : c.used ≤ c.limit) (hlt : c.limit - c.used < n) :
    okCount (runReserves c n).1 = c.limit - c.used ∧
    exceededCount (runReserves c n).1 = n - (c.limit - c.used) ∧
    (runReserves c n).2.used ≤ c.limit := by
  have hok := runReserves_okCount n c
  have hlen := runReserves_length n c
  have hpart := runReserves_partition (runReserves c n).1
  have hused := runReserves_used n c hcl
  refine ⟨by omega, by omega, by omega⟩

theorem quota_reserve_exact_witness :
    okCount (runReserves ⟨8, 10⟩ 5).1 = 2 ∧
    exceededCount (runReserves ⟨8, 10⟩ 5).1 = 3 ∧
    (runReserves ⟨8, 10⟩ 5).2.used ≤ 10 :=
  quota_reserve_exact ⟨8, 10⟩ 5 (by decide) (by decide)

/-- The four subscription statuses of a tenant. -/
inductive SubStatus : Type
  | trial
  | active
  | expired
  | cancelled
  deriving DecidableEq, Repr, Fintype

/-- The lifecycle operations acting on a tenant's subscription status. -/
inductive SubEvent : Type
  | upgrade
  | cancel
  | reactivate
  | trialExpiry
  deriving DecidableEq, Repr, Fintype

/-- Modelled from the spec: the SubscriptionLifecycle state machine (the
Python backend implementing it is not under src/). Permitted transitions:
trial→active (upgrade), trial→expired (lazy trial expiry), active→cancelled
(cancel), cancelled→active (reactivation), expired→active (explicit
upgrade); every other operation is refused and leaves the status unchanged. -/
def subStep : SubStatus → SubEvent → Option SubStatus
  | .trial, .upgrade => some .active
  | .trial, .trialExpiry => some .expired
  | .active, .cancel => some .cancelled
  | .cancelled, .reactivate => some .active
  | .expired, .upgrade => some .active
  | _, _ => none

/-- The five transitions the spec permits, as a relation on statuses. -/
def allowedTransition : SubStatus → SubStatus → Bool
  | .trial, .active => true
  | .trial, .expired => true
  | .active, .cancelled => true
  | .cancelled, .active => true
  | .expired, .active => true
  | _, _ => false

/-- The status transitions realized by a sequence of lifecycle operations:
a refused operation leaves the status unchanged and contributes no edge. -/
def statusTrace : SubStatus → List SubEvent → List (SubStatus × SubStatus)
  | _, [] => []
  | s, e :: es =>
    match subStep s e with
    | some t => (s, t) :: statusTrace t es
    | none => statusTrace s es

theorem subStep_allowed :
    ∀ (s : SubStatus) (e : SubEvent) (t : SubStatus),
      subStep s e = some t → allowedTransition s t = true ∧ t ≠ .trial := by
  decide

/-- C4: every transition realized by any sequence of lifecycle operations,
from any starting status, is one of the five permitted ones — trial→active,
trial→expired, active→cancelled, cancelled→active, expired→active — and in
particular no operation ever produces the status `trial` (never
expired→trial); each of the five permitted transitions is indeed performed
by its operation. -/
theorem subscription_transitions_sound (s : SubStatus) (evs : List SubEvent)
    (pr : SubStatus × SubStatus) (hpr : pr ∈ statusTrace s evs) :
    (allowedTransition pr.1 pr.2 = true ∧ pr.2 ≠ .trial) ∧
    subStep .trial .upgrade = some .active ∧
    subStep .trial .trialExpiry = some .expired ∧
    subStep .active .cancel = some .cancelled ∧
    subStep .cancelled .reactivate = some .active ∧
    subStep .expired .upgrade = some .active := by
  refine ⟨?_, rfl, rfl, rfl, rfl, rfl⟩
  induction evs generalizing s with
  | nil => cases hpr
  | cons e es ih =>
    unfold statusTrace at hpr
    rcases h : subStep s e with _ | t
    · rw [h] at hpr
      exact ih s hpr
    · rw [h] at hpr
      rcases List.mem_cons.mp hpr with heq | hmem
      · subst heq
        exact subStep_allowed s e t h
      · exact ih t hmem

theorem subscription_transitions_sound_witness :
    (allowedTransition SubStatus.trial SubStatus.active = true ∧
      SubStatus.active ≠ SubStatus.trial) ∧
    subStep .trial .upgrade = some .active ∧
    subStep .trial .trialExpiry = some .expired ∧
    subStep .active .cancel = some .cancelled ∧
    subStep .cancelled .reactivate = some .active ∧
    subStep .expired .upgrade = some .active :=
  subscription_transitions_sound .trial [.upgrade, .cancel, .reactivate]
    (.trial, .active) (by decide)
